import Mathlib

/-!
Verification development for the `SceneManager` rendering script
(`Source/SceneManager.cpp`).

The scene manager keeps a fixed-capacity texture registry (a 16-entry
array of tag/ID pairs with a manual `m_loadedTextures` cursor), a list of
named lighting materials, and composes per-object model matrices from
scale / rotation / translation parameters before each draw call.

The embedding below models:
 * the texture registry state and `CreateGLTexture`, `FindTextureID`,
   `FindTextureSlot`;
 * the material list and `FindMaterial`, `SetShaderMaterial`;
 * the GLM matrix helpers (`glm::scale`, `glm::rotate`, `glm::translate`,
   `glm::radians`) and `SetTransformations`;
 * the straight-line `RenderScene` script as an explicit command list.

External collaborators (the image decoder `stbi_load`, the GL handle
generator `glGenTextures`, and the shader-uniform interface) are modelled
as inputs respectively outputs of the functions that use them.  C++
`float` values are embedded as real numbers, `std::string` as `String`,
`std::vector` as `List`.
-/

namespace CS330

/-- A GLM 3-vector (`glm::vec3`), embedded with real components. -/
structure Vec3 where
  x : ℝ
  y : ℝ
  z : ℝ

/-- A GLM 4-vector (`glm::vec4`), embedded with real components. -/
structure Vec4 where
  x : ℝ
  y : ℝ
  z : ℝ
  w : ℝ

/-- One entry of the texture registry: the `TEXTURE_INFO` pair of a tag
string and a GL texture ID (declared in `SceneManager.h`; its fields are
exactly the ones accessed as `.tag` and `.ID` in `SceneManager.cpp`). -/
structure TextureEntry where
  tag : String
  ID : Int
deriving DecidableEq

/-- The `OBJECT_MATERIAL` record: ambient/diffuse/specular colors, ambient
strength, shininess and a tag string, as written in
`DefineObjectMaterials`. -/
structure OBJECT_MATERIAL where
  ambientColor : Vec3
  ambientStrength : ℝ
  diffuseColor : Vec3
  specularColor : Vec3
  shininess : ℝ
  tag : String

/-- The result of a successful `stbi_load` call: width, height and the
number of color channels of the decoded image. -/
structure Image where
  width : ℕ
  height : ℕ
  colorChannels : ℕ
deriving DecidableEq

/-- The mutable state of a `SceneManager` object that the claims are
about: the texture array `m_textureIDs` (a 16-entry C array, embedded as
a total map from indices; only indices `< 16` correspond to array
storage and the in-range theorems below establish that all registry
reads and writes stay there), the cursor `m_loadedTextures`, and the
material vector `m_objectMaterials`. -/
structure SceneState where
  textureIDs : ℕ → TextureEntry
  loadedTextures : ℕ
  objectMaterials : List OBJECT_MATERIAL

/-- The constructor `SceneManager::SceneManager`: every texture slot is
initialised to the tag `"/0"` and ID `-1`, and the loaded-texture count
starts at `0`.  The material vector starts empty. -/
def initState : SceneState where
  textureIDs := fun _ => { tag := "/0", ID := -1 }
  loadedTextures := 0
  objectMaterials := []

/-- `SceneManager::CreateGLTexture`.  The decoder result (`stbi_load`)
and the GL handle produced by `glGenTextures` are external inputs.  When
the image decodes and has 3 (RGB) or 4 (RGBA) channels, the texture is
uploaded and registered at index `m_loadedTextures`, which is then
incremented, and the call returns `true`; with any other channel count
the function returns `false` before touching the registry; on decode
failure it returns `false`. -/
def createGLTexture (s : SceneState) (image : Option Image) (tag : String)
    (newID : Int) : Bool × SceneState :=
  match image with
  | some img =>
    if img.colorChannels = 3 ∨ img.colorChannels = 4 then
      (true,
        { s with
          textureIDs := fun i =>
            if i = s.loadedTextures then { tag := tag, ID := newID }
            else s.textureIDs i
          loadedTextures := s.loadedTextures + 1 })
    else
      (false, s)
  | none => (false, s)

/-- The `while ((index < m_loadedTextures) && (bFound == false))` scan of
`FindTextureSlot`, returning the first index at which the stored tag
compares equal, or `-1`.  `index` is the loop counter; the second `ℕ`
argument is the number of entries still to inspect
(`m_loadedTextures - index`), which makes the loop's termination
structural. -/
def findSlotLoop (f : ℕ → TextureEntry) (tag : String) : ℕ → ℕ → Int
  | _, 0 => -1
  | index, rem + 1 =>
    if (f index).tag = tag then (index : Int)
    else findSlotLoop f tag (index + 1) rem

/-- `SceneManager::FindTextureSlot`: linear scan of the registered
entries by tag, returning the slot index, or the sentinel `-1` when no
registered entry carries the tag. -/
def findTextureSlot (s : SceneState) (tag : String) : Int :=
  findSlotLoop s.textureIDs tag 0 s.loadedTextures

/-- The scan loop of `FindTextureID`, identical to `findSlotLoop` except
that it returns the stored GL texture ID instead of the slot index. -/
def findIDLoop (f : ℕ → TextureEntry) (tag : String) : ℕ → ℕ → Int
  | _, 0 => -1
  | index, rem + 1 =>
    if (f index).tag = tag then (f index).ID
    else findIDLoop f tag (index + 1) rem

/-- `SceneManager::FindTextureID`: linear scan of the registered entries
by tag, returning the stored GL texture ID, or `-1` when absent. -/
def findTextureID (s : SceneState) (tag : String) : Int :=
  findIDLoop s.textureIDs tag 0 s.loadedTextures

/-- The scan loop of `FindMaterial`: walk the material list until the
first entry whose tag compares equal, and copy its `diffuseColor`,
`specularColor` and `shininess` fields (and only those) into the
caller-supplied output record `material`. -/
def scanMaterial (tag : String) (material : OBJECT_MATERIAL) :
    List OBJECT_MATERIAL → OBJECT_MATERIAL
  | [] => material
  | m :: rest =>
    if m.tag = tag then
      { material with
        diffuseColor := m.diffuseColor
        specularColor := m.specularColor
        shininess := m.shininess }
    else scanMaterial tag material rest

/-- `SceneManager::FindMaterial`.  If the material list is empty the
function returns `false` at once.  Otherwise it runs the scan loop over
the list and returns `true` — note that the C++ returns `true` whether
or not the loop found the tag.  The returned pair is (the C++ `bool`
result, the final value of the by-reference output `material`). -/
def findMaterial (mats : List OBJECT_MATERIAL) (tag : String)
    (material : OBJECT_MATERIAL) : Bool × OBJECT_MATERIAL :=
  if mats.length = 0 then
    (false, material)
  else
    (true, scanMaterial tag material mats)

/-! ### GLM matrix helpers

GLM stores matrices column-major: the C++ expression `M[c][r]` is entry
(row `r`, column `c`).  We embed a `glm::mat4` as a mathematical
`Matrix (Fin 4) (Fin 4) ℝ` in row/column convention; GLM's `operator*`
is then ordinary matrix multiplication. -/

/-- A `glm::mat4`, embedded as a 4×4 real matrix. -/
abbrev Mat4 := Matrix (Fin 4) (Fin 4) ℝ

/-- `glm::radians`: degrees to radians, multiplication by π / 180. -/
noncomputable def glmRadians (degrees : ℝ) : ℝ := degrees * (Real.pi / 180)

/-- `glm::normalize` on a 3-vector: division by the Euclidean norm
(`v * inversesqrt(dot(v, v))`). -/
noncomputable def glmNormalize (v : Vec3) : Vec3 where
  x := v.x / Real.sqrt (v.x * v.x + v.y * v.y + v.z * v.z)
  y := v.y / Real.sqrt (v.x * v.x + v.y * v.y + v.z * v.z)
  z := v.z / Real.sqrt (v.x * v.x + v.y * v.y + v.z * v.z)

/-- `glm::scale(v)` (GTX transform overload): the matrix with diagonal
`(v.x, v.y, v.z, 1)`. -/
def glmScale (v : Vec3) : Mat4 :=
  !![v.x, 0, 0, 0;
     0, v.y, 0, 0;
     0, 0, v.z, 0;
     0, 0, 0, 1]

/-- `glm::rotate(angle, v)` (GTX transform overload, applied to the
identity matrix): the axis–angle rotation matrix built in
`matrix_transform.inl` from `c = cos(angle)`, `s = sin(angle)`, the
normalised axis, and `temp = (1 - c) * axis`.  Written column-major in
the C++ (`Rotate[c][r]`), transcribed here entry by entry in row/column
convention. -/
noncomputable def glmRotate (angle : ℝ) (v : Vec3) : Mat4 :=
  let c := Real.cos angle
  let s := Real.sin angle
  let axis := glmNormalize v
  let tx := (1 - c) * axis.x
  let ty := (1 - c) * axis.y
  let tz := (1 - c) * axis.z
  !![c + tx * axis.x, ty * axis.x - s * axis.z, tz * axis.x + s * axis.y, 0;
     tx * axis.y + s * axis.z, c + ty * axis.y, tz * axis.y - s * axis.x, 0;
     tx * axis.z - s * axis.y, ty * axis.z + s * axis.x, c + tz * axis.z, 0;
     0, 0, 0, 1]

/-- `glm::translate(v)` (GTX transform overload): the identity with
`(v.x, v.y, v.z, 1)` as last column. -/
def glmTranslate (v : Vec3) : Mat4 :=
  !![1, 0, 0, v.x;
     0, 1, 0, v.y;
     0, 0, 1, v.z;
     0, 0, 0, 1]

/-- The model matrix computed by `SceneManager::SetTransformations`:
`scale = glm::scale(scaleXYZ)`, the three rotations
`glm::rotate(glm::radians(angle), unit axis)`, the translation
`glm::translate(positionXYZ)`, composed as
`translation * rotationZ * rotationY * rotationX * scale` and sent to
the `"model"` uniform. -/
noncomputable def setTransformationsModel (scaleXYZ : Vec3)
    (XrotationDegrees YrotationDegrees ZrotationDegrees : ℝ)
    (positionXYZ : Vec3) : Mat4 :=
  let scale := glmScale scaleXYZ
  let rotationX := glmRotate (glmRadians XrotationDegrees) ⟨1, 0, 0⟩
  let rotationY := glmRotate (glmRadians YrotationDegrees) ⟨0, 1, 0⟩
  let rotationZ := glmRotate (glmRadians ZrotationDegrees) ⟨0, 0, 1⟩
  let translation := glmTranslate positionXYZ
  translation * rotationZ * rotationY * rotationX * scale

/-! ### Elementary transform matrices (from the specification)

The spec describes the model matrix as the product
"translation × rotateZ × rotateY × rotateX × scale" of elementary
transform matrices.  These are the textbook forms, written
independently of the GLM definitions above, to be compared with them. -/

/-- Elementary rotation about the X axis by `θ` radians. -/
noncomputable def elemRotX (θ : ℝ) : Mat4 :=
  !![1, 0, 0, 0;
     0, Real.cos θ, -Real.sin θ, 0;
     0, Real.sin θ, Real.cos θ, 0;
     0, 0, 0, 1]

/-- Elementary rotation about the Y axis by `θ` radians. -/
noncomputable def elemRotY (θ : ℝ) : Mat4 :=
  !![Real.cos θ, 0, Real.sin θ, 0;
     0, 1, 0, 0;
     -Real.sin θ, 0, Real.cos θ, 0;
     0, 0, 0, 1]

/-- Elementary rotation about the Z axis by `θ` radians. -/
noncomputable def elemRotZ (θ : ℝ) : Mat4 :=
  !![Real.cos θ, -Real.sin θ, 0, 0;
     Real.sin θ, Real.cos θ, 0, 0;
     0, 0, 1, 0;
     0, 0, 0, 1]

/-- Elementary (affine) scale matrix. -/
def elemScale (v : Vec3) : Mat4 :=
  !![v.x, 0, 0, 0;
     0, v.y, 0, 0;
     0, 0, v.z, 0;
     0, 0, 0, 1]

/-- Elementary (affine) translation matrix. -/
def elemTranslate (v : Vec3) : Mat4 :=
  !![1, 0, 0, v.x;
     0, 1, 0, v.y;
     0, 0, 1, v.z;
     0, 0, 0, 1]

/-! ### The shader-uniform interface

`ShaderManager` is an external collaborator; a call into it is modelled
as an emitted event.  The named uniform constants mirror the anonymous
namespace globals at the top of `SceneManager.cpp`. -/

/-- One call into the external `ShaderManager` uniform interface. -/
inductive ShaderCall where
  | setMat4Value (name : String) (value : Mat4)
  | setIntValue (name : String) (value : Int)
  | setVec4Value (name : String) (value : Vec4)
  | setVec3Value (name : String) (value : Vec3)
  | setFloatValue (name : String) (value : ℝ)
  | setSampler2DValue (name : String) (value : Int)

/-- The global `g_ModelName`. -/
def g_ModelName : String := "model"

/-- The global `g_ColorValueName`. -/
def g_ColorValueName : String := "objectColor"

/-- The global `g_TextureValueName`. -/
def g_TextureValueName : String := "objectTexture"

/-- The global `g_UseTextureName`. -/
def g_UseTextureName : String := "bUseTexture"

/-- `SceneManager::SetTransformations` (shader-manager present): compose
the model matrix and send it to the `"model"` uniform. -/
noncomputable def setTransformations (scaleXYZ : Vec3)
    (XrotationDegrees YrotationDegrees ZrotationDegrees : ℝ)
    (positionXYZ : Vec3) : List ShaderCall :=
  [ .setMat4Value g_ModelName
      (setTransformationsModel scaleXYZ XrotationDegrees YrotationDegrees
        ZrotationDegrees positionXYZ) ]

/-- `SceneManager::SetShaderColor` (shader-manager present): disable
texturing (the C++ passes `false`, converted to the int `0`) and send
the color to the `"objectColor"` uniform. -/
def setShaderColor (r g b a : ℝ) : List ShaderCall :=
  [ .setIntValue g_UseTextureName 0,
    .setVec4Value g_ColorValueName ⟨r, g, b, a⟩ ]

/-- `SceneManager::SetShaderTexture` (shader-manager present): enable
texturing (the C++ passes `true`, converted to the int `1`) and send
the slot found for the tag — `-1` when the tag is not registered — to
the `"objectTexture"` sampler uniform. -/
def setShaderTexture (s : SceneState) (textureTag : String) :
    List ShaderCall :=
  [ .setIntValue g_UseTextureName 1,
    .setSampler2DValue g_TextureValueName (findTextureSlot s textureTag) ]

/-- `SceneManager::SetShaderMaterial`.  The C++ declares an
uninitialised local `OBJECT_MATERIAL material`; its indeterminate
initial value is the explicit argument `localMaterial`.  When the
material list is non-empty, `FindMaterial` is run and, if it returned
`true`, the resulting diffuse color, specular color and shininess are
sent to the shader. -/
def setShaderMaterial (s : SceneState) (materialTag : String)
    (localMaterial : OBJECT_MATERIAL) : List ShaderCall :=
  if s.objectMaterials.length > 0 then
    let found := findMaterial s.objectMaterials materialTag localMaterial
    if found.1 = true then
      [ .setVec3Value "material.diffuseColor" found.2.diffuseColor,
        .setVec3Value "material.specularColor" found.2.specularColor,
        .setFloatValue "material.shininess" found.2.shininess ]
    else []
  else []

/-! ### Texture load sequences -/

/-- One `CreateGLTexture` call: the decoder's result for the file, the
tag, and the GL handle `glGenTextures` would produce. -/
structure TexLoad where
  img : Option Image
  tag : String
  newID : Int
deriving DecidableEq

/-- Whether a `CreateGLTexture` call with this decode result succeeds:
the image decoded and has 3 or 4 color channels. -/
def decodeOK : Option Image → Bool
  | some img => img.colorChannels = 3 ∨ img.colorChannels = 4
  | none => false

/-- Run a sequence of `CreateGLTexture` calls in order, threading the
scene state through (each call's boolean result is discarded, as in
`LoadSceneTextures`). -/
def runLoads (s : SceneState) : List TexLoad → SceneState
  | [] => s
  | c :: rest => runLoads (createGLTexture s c.img c.tag c.newID).2 rest

/-- The indices of the registry array written during a sequence of
`CreateGLTexture` calls: each successful call writes
`m_textureIDs[m_loadedTextures]` at its pre-state cursor value. -/
def runWriteIndices (s : SceneState) : List TexLoad → List ℕ
  | [] => []
  | c :: rest =>
    let r := createGLTexture s c.img c.tag c.newID
    (if r.1 then [s.loadedTextures] else []) ++ runWriteIndices r.2 rest

/-- The nine (filename, tag) pairs passed to `CreateGLTexture` by
`SceneManager::LoadSceneTextures`, in call order. -/
def sceneTextureFiles : List (String × String) :=
  [ ("textures/desktop.jpg", "desk"),
    ("textures/keyboard.jpg", "keyboard"),
    ("textures/rest.jpg", "rest"),
    ("textures/notebook.jpg", "notebook"),
    ("textures/metal.jpg", "metal"),
    ("textures/wood.jpg", "wood"),
    ("textures/pencil.jpg", "pencil"),
    ("textures/metal1.jpg", "metal1"),
    ("textures/eraser.jpg", "eraser") ]

/-- Build the `CreateGLTexture` call list for a (filename, tag) list
starting at call number `k`: call `k` decodes its file through the
external decoder and receives GL handle `ids k`. -/
def mkLoadsFrom (decode : String → Option Image) (ids : ℕ → Int)
    (k : ℕ) : List (String × String) → List TexLoad
  | [] => []
  | p :: rest =>
    { img := decode p.1, tag := p.2, newID := ids k } ::
      mkLoadsFrom decode ids (k + 1) rest

/-- The load sequence of `LoadSceneTextures`, given the external decoder
(filename to decode result) and the GL handles the driver produces for
the successive calls. -/
def mkLoads (decode : String → Option Image) (ids : ℕ → Int) :
    List TexLoad :=
  mkLoadsFrom decode ids 0 sceneTextureFiles

/-- `SceneManager::LoadSceneTextures`: the nine `CreateGLTexture` calls
in order, each boolean result discarded.  (The final `BindGLTextures`
call does not modify the registry.) -/
def loadSceneTextures (s : SceneState) (decode : String → Option Image)
    (ids : ℕ → Int) : SceneState :=
  runLoads s (mkLoads decode ids)

/-! ### The material table -/

/-- The eight materials pushed onto `m_objectMaterials` by
`SceneManager::DefineObjectMaterials`, in `push_back` order. -/
def definedMaterials : List OBJECT_MATERIAL :=
  [ { ambientColor := ⟨0.01, 0.01, 0.01⟩, ambientStrength := 0.4,
      diffuseColor := ⟨0.05, 0.05, 0.05⟩, specularColor := ⟨0.2, 0.2, 0.2⟩,
      shininess := 5.0, tag := "carbon" },
    { ambientColor := ⟨0.1, 0.1, 0.1⟩, ambientStrength := 0.3,
      diffuseColor := ⟨0.1, 0.1, 0.1⟩, specularColor := ⟨0.1, 0.1, 0.1⟩,
      shininess := 25.0, tag := "plastic" },
    { ambientColor := ⟨0.01, 0.01, 0.01⟩, ambientStrength := 0.1,
      diffuseColor := ⟨0.05, 0.05, 0.05⟩, specularColor := ⟨0.01, 0.01, 0.01⟩,
      shininess := 5.0, tag := "fabric" },
    { ambientColor := ⟨0.01, 0.01, 0.2⟩, ambientStrength := 0.4,
      diffuseColor := ⟨0.4, 0.4, 0.4⟩, specularColor := ⟨0.5, 0.5, 0.5⟩,
      shininess := 100.0, tag := "note" },
    { ambientColor := ⟨0.1, 0.1, 0.05⟩, ambientStrength := 0.1,
      diffuseColor := ⟨0.2, 0.2, 0.15⟩, specularColor := ⟨0.1, 0.1, 0.05⟩,
      shininess := 50.0, tag := "wood" },
    { ambientColor := ⟨0.3, 0.3, 0.0⟩, ambientStrength := 0.4,
      diffuseColor := ⟨0.7, 0.7, 0.0⟩, specularColor := ⟨0.9, 0.9, 0.0⟩,
      shininess := 10.0, tag := "pencil" },
    { ambientColor := ⟨0.5, 0.5, 0.5⟩, ambientStrength := 0.4,
      diffuseColor := ⟨0.8, 0.8, 0.8⟩, specularColor := ⟨0.9, 0.9, 0.9⟩,
      shininess := 100.0, tag := "metal" },
    { ambientColor := ⟨0.5, 0.37, 0.4⟩, ambientStrength := 0.9,
      diffuseColor := ⟨0.5, 0.37, 0.4⟩, specularColor := ⟨0.01, 0.007, 0.008⟩,
      shininess := 10.0, tag := "rubber" } ]

/-- `SceneManager::DefineObjectMaterials`: append the eight materials to
the material vector. -/
def defineObjectMaterials (s : SceneState) : SceneState :=
  { s with objectMaterials := s.objectMaterials ++ definedMaterials }

/-! ### The `RenderScene` script

`RenderScene` is a straight-line sequence of assignments to five local
variables (`scaleXYZ`, the three rotation angles, `positionXYZ`) and of
calls to `SetTransformations` / `SetShaderColor` / `SetShaderTexture` /
`SetShaderMaterial` and the mesh draw methods.  It is embedded as an
explicit command list (`renderScript`, transcribed statement by
statement from the function body, commented-out statements omitted)
executed over the scene state and the local variables. -/

/-- The local variables of `RenderScene`. -/
structure RenderLocals where
  scaleXYZ : Vec3
  XrotationDegrees : ℝ
  YrotationDegrees : ℝ
  ZrotationDegrees : ℝ
  positionXYZ : Vec3

/-- One statement of the `RenderScene` body. -/
inductive RCmd where
  | setScale (v : Vec3)
  | setXRot (d : ℝ)
  | setYRot (d : ℝ)
  | setZRot (d : ℝ)
  | setPos (v : Vec3)
  | applyTransformations
  | shaderColor (r g b a : ℝ)
  | shaderTexture (tag : String)
  | shaderMaterial (tag : String)
  | drawPlaneMesh
  | drawBoxMesh
  | drawBoxMesh2
  | drawCylinderMesh
  | drawConeMesh
  | drawTorusMesh

/-- Execute one `RenderScene` statement: local-variable assignments
update the locals, the `Set*` calls emit their shader calls, the draw
calls go to the external mesh library.  `lm` is the indeterminate
content of the uninitialised local `OBJECT_MATERIAL` inside
`SetShaderMaterial`. -/
noncomputable def execRCmd (s : SceneState) (loc : RenderLocals)
    (lm : OBJECT_MATERIAL) :
    RCmd → SceneState × RenderLocals × List ShaderCall
  | .setScale v => (s, { loc with scaleXYZ := v }, [])
  | .setXRot d => (s, { loc with XrotationDegrees := d }, [])
  | .setYRot d => (s, { loc with YrotationDegrees := d }, [])
  | .setZRot d => (s, { loc with ZrotationDegrees := d }, [])
  | .setPos v => (s, { loc with positionXYZ := v }, [])
  | .applyTransformations =>
    (s, loc,
      setTransformations loc.scaleXYZ loc.XrotationDegrees
        loc.YrotationDegrees loc.ZrotationDegrees loc.positionXYZ)
  | .shaderColor r g b a => (s, loc, setShaderColor r g b a)
  | .shaderTexture tag => (s, loc, setShaderTexture s tag)
  | .shaderMaterial tag => (s, loc, setShaderMaterial s tag lm)
  | .drawPlaneMesh => (s, loc, [])
  | .drawBoxMesh => (s, loc, [])
  | .drawBoxMesh2 => (s, loc, [])
  | .drawCylinderMesh => (s, loc, [])
  | .drawConeMesh => (s, loc, [])
  | .drawTorusMesh => (s, loc, [])

/-- Execute a list of `RenderScene` statements in order, threading the
scene state and the locals and concatenating the emitted shader
calls. -/
noncomputable def runScript (s : SceneState) (loc : RenderLocals)
    (lm : OBJECT_MATERIAL) :
    List RCmd → SceneState × RenderLocals × List ShaderCall
  | [] => (s, loc, [])
  | c :: rest =>
    let r := execRCmd s loc lm c
    let rr := runScript r.1 r.2.1 lm rest
    (rr.1, rr.2.1, r.2.2 ++ rr.2.2)

/-- Statements of the `RenderScene` body, part 1 of 5 (in program order; split only to keep elaboration fast). -/
def renderScriptPart1 : List RCmd := [
  .setXRot (0.0 : ℝ),
  .setYRot (0.0 : ℝ),
  .setZRot (0.0 : ℝ),
  .setScale ⟨(15.0 : ℝ), (1.0 : ℝ), (5.0 : ℝ)⟩,
  .setPos ⟨(0.0 : ℝ), (0.0 : ℝ), (4.0 : ℝ)⟩,
  .applyTransformations,
  .shaderMaterial "carbon",
  .shaderTexture "desk",
  .drawPlaneMesh,
  .setScale ⟨(10.0 : ℝ), (0.2 : ℝ), (4.0 : ℝ)⟩,
  .setXRot (1.8 : ℝ),
  .setYRot (0.0 : ℝ),
  .setZRot (0.0 : ℝ),
  .setPos ⟨(0.0 : ℝ), (0.05 : ℝ), (4.0 : ℝ)⟩,
  .applyTransformations,
  .shaderTexture "keyboard",
  .shaderMaterial "plastic",
  .drawBoxMesh,
  .setScale ⟨(1.0 : ℝ), (0.05 : ℝ), (1.0 : ℝ)⟩,
  .setXRot (0.0 : ℝ),
  .setYRot (0.0 : ℝ),
  .setZRot (0.0 : ℝ),
  .setPos ⟨(7.0 : ℝ), (0.0 : ℝ), (4.0 : ℝ)⟩,
  .applyTransformations,
  .shaderTexture "rest",
  .shaderMaterial "fabric",
  .drawCylinderMesh,
  .setScale ⟨(9.5 : ℝ), (0.05 : ℝ), (1.5 : ℝ)⟩,
  .setPos ⟨(0.0 : ℝ), (0.05 : ℝ), (7.0 : ℝ)⟩,
  .applyTransformations,
  .drawBoxMesh,
  .setScale ⟨(9.4 : ℝ), (0.15 : ℝ), (1.4 : ℝ)⟩,
  .setPos ⟨(0.0 : ℝ), (0.1 : ℝ), (7.0 : ℝ)⟩,
  .applyTransformations,
  .drawBoxMesh]

/-- Statements of the `RenderScene` body, part 2 of 5 (in program order; split only to keep elaboration fast). -/
def renderScriptPart2 : List RCmd := [
  .setScale ⟨(4.8 : ℝ), (0.1 : ℝ), (6.0 : ℝ)⟩,
  .setPos ⟨(-9.0 : ℝ), (0.05 : ℝ), (4.5 : ℝ)⟩,
  .applyTransformations,
  .shaderTexture "notebook",
  .shaderMaterial "note",
  .drawBoxMesh2,
  .setScale ⟨(0.1 : ℝ), (0.1 : ℝ), (0.05 : ℝ)⟩,
  .setPos ⟨(-11.4 : ℝ), (0.05 : ℝ), (4.0 : ℝ)⟩,
  .applyTransformations,
  .shaderTexture "metal",
  .shaderMaterial "metal",
  .drawTorusMesh,
  .setPos ⟨(-11.4 : ℝ), (0.05 : ℝ), (4.2 : ℝ)⟩,
  .applyTransformations,
  .drawTorusMesh,
  .setPos ⟨(-11.4 : ℝ), (0.05 : ℝ), (4.4 : ℝ)⟩,
  .applyTransformations,
  .drawTorusMesh,
  .setPos ⟨(-11.4 : ℝ), (0.05 : ℝ), (4.6 : ℝ)⟩,
  .applyTransformations,
  .drawTorusMesh,
  .setPos ⟨(-11.4 : ℝ), (0.05 : ℝ), (4.8 : ℝ)⟩,
  .applyTransformations,
  .drawTorusMesh,
  .setPos ⟨(-11.4 : ℝ), (0.05 : ℝ), (5.0 : ℝ)⟩,
  .applyTransformations,
  .drawTorusMesh,
  .setPos ⟨(-11.4 : ℝ), (0.05 : ℝ), (5.2 : ℝ)⟩,
  .applyTransformations,
  .drawTorusMesh,
  .setPos ⟨(-11.4 : ℝ), (0.05 : ℝ), (5.4 : ℝ)⟩,
  .applyTransformations,
  .drawTorusMesh,
  .setPos ⟨(-11.4 : ℝ), (0.05 : ℝ), (5.6 : ℝ)⟩,
  .applyTransformations]

/-- Statements of the `RenderScene` body, part 3 of 5 (in program order; split only to keep elaboration fast). -/
def renderScriptPart3 : List RCmd := [
  .drawTorusMesh,
  .setPos ⟨(-11.4 : ℝ), (0.05 : ℝ), (5.8 : ℝ)⟩,
  .applyTransformations,
  .drawTorusMesh,
  .setPos ⟨(-11.4 : ℝ), (0.05 : ℝ), (6.0 : ℝ)⟩,
  .applyTransformations,
  .drawTorusMesh,
  .setPos ⟨(-11.4 : ℝ), (0.05 : ℝ), (6.2 : ℝ)⟩,
  .applyTransformations,
  .drawTorusMesh,
  .setPos ⟨(-11.4 : ℝ), (0.05 : ℝ), (6.4 : ℝ)⟩,
  .applyTransformations,
  .drawTorusMesh,
  .setPos ⟨(-11.4 : ℝ), (0.05 : ℝ), (6.6 : ℝ)⟩,
  .applyTransformations,
  .drawTorusMesh,
  .setPos ⟨(-11.4 : ℝ), (0.05 : ℝ), (6.8 : ℝ)⟩,
  .applyTransformations,
  .drawTorusMesh,
  .setPos ⟨(-11.4 : ℝ), (0.05 : ℝ), (7.0 : ℝ)⟩,
  .applyTransformations,
  .drawTorusMesh,
  .setPos ⟨(-11.4 : ℝ), (0.05 : ℝ), (7.2 : ℝ)⟩,
  .applyTransformations,
  .drawTorusMesh,
  .setPos ⟨(-11.4 : ℝ), (0.05 : ℝ), (7.4 : ℝ)⟩,
  .applyTransformations,
  .drawTorusMesh,
  .setPos ⟨(-11.4 : ℝ), (0.05 : ℝ), (3.8 : ℝ)⟩,
  .applyTransformations,
  .drawTorusMesh,
  .setPos ⟨(-11.4 : ℝ), (0.05 : ℝ), (3.6 : ℝ)⟩,
  .applyTransformations,
  .drawTorusMesh,
  .setPos ⟨(-11.4 : ℝ), (0.05 : ℝ), (3.4 : ℝ)⟩]

/-- Statements of the `RenderScene` body, part 4 of 5 (in program order; split only to keep elaboration fast). -/
def renderScriptPart4 : List RCmd := [
  .applyTransformations,
  .drawTorusMesh,
  .setPos ⟨(-11.4 : ℝ), (0.05 : ℝ), (3.2 : ℝ)⟩,
  .applyTransformations,
  .drawTorusMesh,
  .setPos ⟨(-11.4 : ℝ), (0.05 : ℝ), (3.0 : ℝ)⟩,
  .applyTransformations,
  .drawTorusMesh,
  .setPos ⟨(-11.4 : ℝ), (0.05 : ℝ), (2.8 : ℝ)⟩,
  .applyTransformations,
  .drawTorusMesh,
  .setPos ⟨(-11.4 : ℝ), (0.05 : ℝ), (2.6 : ℝ)⟩,
  .applyTransformations,
  .drawTorusMesh,
  .setPos ⟨(-11.4 : ℝ), (0.05 : ℝ), (2.4 : ℝ)⟩,
  .applyTransformations,
  .drawTorusMesh,
  .setPos ⟨(-11.4 : ℝ), (0.05 : ℝ), (2.2 : ℝ)⟩,
  .applyTransformations,
  .drawTorusMesh,
  .setPos ⟨(-11.4 : ℝ), (0.05 : ℝ), (2.0 : ℝ)⟩,
  .applyTransformations,
  .drawTorusMesh,
  .setPos ⟨(-11.4 : ℝ), (0.05 : ℝ), (1.8 : ℝ)⟩,
  .applyTransformations,
  .drawTorusMesh,
  .setPos ⟨(-11.4 : ℝ), (0.05 : ℝ), (1.6 : ℝ)⟩,
  .applyTransformations,
  .drawTorusMesh,
  .setScale ⟨(0.1 : ℝ), (0.3 : ℝ), (0.1 : ℝ)⟩,
  .setXRot (-90.0 : ℝ),
  .setYRot (45.0 : ℝ),
  .setZRot (0.0 : ℝ),
  .setPos ⟨(-9.8 : ℝ), (0.2 : ℝ), (2.2 : ℝ)⟩,
  .applyTransformations]

/-- Statements of the `RenderScene` body, part 5 of 5 (in program order; split only to keep elaboration fast). -/
def renderScriptPart5 : List RCmd := [
  .shaderMaterial "wood",
  .shaderTexture "wood",
  .drawConeMesh,
  .setPos ⟨(-10.3 : ℝ), (0.2 : ℝ), (2.7 : ℝ)⟩,
  .applyTransformations,
  .drawConeMesh,
  .setScale ⟨(0.1 : ℝ), (3.253 : ℝ), (0.1 : ℝ)⟩,
  .setPos ⟨(-7.5 : ℝ), (0.2 : ℝ), (4.5 : ℝ)⟩,
  .applyTransformations,
  .shaderColor (0.2 : ℝ) (0.2 : ℝ) (0.2 : ℝ) (1 : ℝ),
  .shaderMaterial "pencil",
  .shaderTexture "pencil",
  .drawCylinderMesh,
  .setPos ⟨(-8.0 : ℝ), (0.2 : ℝ), (5.0 : ℝ)⟩,
  .applyTransformations,
  .drawCylinderMesh,
  .setScale ⟨(0.105 : ℝ), (0.3 : ℝ), (0.105 : ℝ)⟩,
  .setPos ⟨(-7.3 : ℝ), (0.2 : ℝ), (4.7 : ℝ)⟩,
  .applyTransformations,
  .shaderColor (0.2 : ℝ) (0.2 : ℝ) (0.2 : ℝ) (1 : ℝ),
  .shaderMaterial "metal",
  .shaderTexture "metal1",
  .drawCylinderMesh,
  .setPos ⟨(-7.8 : ℝ), (0.2 : ℝ), (5.2 : ℝ)⟩,
  .applyTransformations,
  .drawCylinderMesh,
  .setScale ⟨(0.1 : ℝ), (0.2 : ℝ), (0.1 : ℝ)⟩,
  .setPos ⟨(-7.2 : ℝ), (0.2 : ℝ), (4.8 : ℝ)⟩,
  .applyTransformations,
  .shaderMaterial "rubber",
  .shaderTexture "eraser",
  .drawCylinderMesh,
  .setPos ⟨(-7.7 : ℝ), (0.2 : ℝ), (5.3 : ℝ)⟩,
  .applyTransformations,
  .drawCylinderMesh]

/-- The statements of the `RenderScene` body, in program order. -/
def renderScript : List RCmd :=
  renderScriptPart1 ++ renderScriptPart2 ++ renderScriptPart3 ++ renderScriptPart4 ++ renderScriptPart5

/-- `SceneManager::RenderScene`, given the starting scene state, the
indeterminate initial values of its local variables (GLM vectors are
not zero-initialised by default; every local is assigned before its
first use in the script) and the indeterminate content of the
uninitialised material local. -/
noncomputable def renderScene (s : SceneState) (loc0 : RenderLocals)
    (lm : OBJECT_MATERIAL) : SceneState × List ShaderCall :=
  let r := runScript s loc0 lm renderScript
  (r.1, r.2.2)

/-! ### Concrete inputs used by the witnesses -/

/-- A 4×4 RGB image (3 channels). -/
def img3 : Image := { width := 4, height := 4, colorChannels := 3 }

/-- A 4×4 RGBA image (4 channels). -/
def img4 : Image := { width := 4, height := 4, colorChannels := 4 }

/-- A 4×4 grayscale-with-alpha image (2 channels, unsupported). -/
def img2 : Image := { width := 4, height := 4, colorChannels := 2 }

/-- A scene state with one registered texture, tag `"alpha"`, ID 3. -/
def sOne : SceneState := (createGLTexture initState (some img4) "alpha" 3).2

/-- A two-call load sequence with distinct tags. -/
def loads2 : List TexLoad :=
  [ { img := some img3, tag := "alpha", newID := 7 },
    { img := some img4, tag := "beta", newID := 8 } ]

/-- A decoder that decodes every file as a 3-channel image. -/
def decAll3 : String → Option Image := fun _ => some img3

/-- A GL-handle supply for witnesses. -/
def idsZero : ℕ → Int := fun _ => 0

/-- A stand-in for the indeterminate content of an uninitialised
`OBJECT_MATERIAL` local. -/
def junkMaterial : OBJECT_MATERIAL :=
  { ambientColor := ⟨0, 0, 0⟩, ambientStrength := 0,
    diffuseColor := ⟨0, 0, 0⟩, specularColor := ⟨0, 0, 0⟩,
    shininess := 0, tag := "" }

/-! ### Helper lemmas on the texture registry -/

/-- Unfolding equation of `createGLTexture` for a successful decode. -/
theorem createGLTexture_some (s : SceneState) (img : Image) (tag : String)
    (newID : Int) :
    createGLTexture s (some img) tag newID =
      if img.colorChannels = 3 ∨ img.colorChannels = 4 then
        (true,
          { s with
            textureIDs := fun i =>
              if i = s.loadedTextures then { tag := tag, ID := newID }
              else s.textureIDs i
            loadedTextures := s.loadedTextures + 1 })
      else
        (false, s) := rfl

/-- Unfolding equation of `createGLTexture` for a failed decode. -/
theorem createGLTexture_none (s : SceneState) (tag : String) (newID : Int) :
    createGLTexture s none tag newID = (false, s) := rfl

/-- A `CreateGLTexture` call succeeds exactly when the decode result is
a 3- or 4-channel image, and on success it registers the tag/ID at the
cursor and increments it. -/
theorem createGLTexture_of_decodeOK (s : SceneState) (c : TexLoad)
    (h : decodeOK c.img = true) :
    createGLTexture s c.img c.tag c.newID =
      (true,
        { s with
          textureIDs := fun i =>
            if i = s.loadedTextures then { tag := c.tag, ID := c.newID }
            else s.textureIDs i
          loadedTextures := s.loadedTextures + 1 }) := by
  cases himg : c.img with
  | none => rw [himg] at h; simp [decodeOK] at h
  | some img =>
    rw [himg] at h
    simp only [decodeOK, decide_eq_true_eq] at h
    rw [createGLTexture_some, if_pos h]

/-- The boolean result of `CreateGLTexture` depends only on the decode
result. -/
theorem createGLTexture_fst (s : SceneState) (image : Option Image)
    (tag : String) (newID : Int) :
    (createGLTexture s image tag newID).1 = decodeOK image := by
  cases image with
  | none => rfl
  | some img =>
    rw [createGLTexture_some]
    by_cases h : img.colorChannels = 3 ∨ img.colorChannels = 4
    · rw [if_pos h]; simp [decodeOK, h]
    · rw [if_neg h]; simp [decodeOK, h]

/-- A `CreateGLTexture` call increments the cursor by at most one. -/
theorem createGLTexture_count_le (s : SceneState) (image : Option Image)
    (tag : String) (newID : Int) :
    (createGLTexture s image tag newID).2.loadedTextures ≤
      s.loadedTextures + 1 := by
  cases image with
  | none => exact Nat.le_succ _
  | some img =>
    rw [createGLTexture_some]
    by_cases h : img.colorChannels = 3 ∨ img.colorChannels = 4
    · rw [if_pos h]
    · rw [if_neg h]; exact Nat.le_succ _

/-! ### C2 and C4: `CreateGLTexture` behaviour -/

/-- C2.  When the image decodes with a channel count other than 3 (RGB)
or 4 (RGBA), `CreateGLTexture` returns `false` and leaves the scene
state — in particular the texture registry and the loaded-texture
count — exactly as it was. -/
theorem C2_unsupported_channels (s : SceneState) (img : Image)
    (tag : String) (newID : Int) (h3 : img.colorChannels ≠ 3)
    (h4 : img.colorChannels ≠ 4) :
    createGLTexture s (some img) tag newID = (false, s) := by
  rw [createGLTexture_some, if_neg]
  rintro (h | h)
  · exact h3 h
  · exact h4 h

/-- Witness for C2: loading a 2-channel image into a state with one
registered texture fails and changes nothing. -/
theorem C2_witness : createGLTexture sOne (some img2) "beta" 9 = (false, sOne) :=
  C2_unsupported_channels sOne img2 "beta" 9 (by decide) (by decide)

/-- C4.  When the image decodes with 3 or 4 channels, `CreateGLTexture`
returns `true` and registers exactly one new texture: the
loaded-texture count grows by one, the entry written at the old cursor
carries the given tag (and the generated GL handle), and every
previously registered entry is unchanged. -/
theorem C4_register_success (s : SceneState) (img : Image) (tag : String)
    (newID : Int) (h : img.colorChannels = 3 ∨ img.colorChannels = 4) :
    (createGLTexture s (some img) tag newID).1 = true ∧
    (createGLTexture s (some img) tag newID).2.loadedTextures =
      s.loadedTextures + 1 ∧
    (createGLTexture s (some img) tag newID).2.textureIDs s.loadedTextures =
      { tag := tag, ID := newID } ∧
    ∀ i < s.loadedTextures,
      (createGLTexture s (some img) tag newID).2.textureIDs i =
        s.textureIDs i := by
  rw [createGLTexture_some, if_pos h]
  refine ⟨rfl, rfl, by simp, ?_⟩
  intro i hi
  simp [Nat.ne_of_lt hi]

/-- Witness for C4: loading a 3-channel image into a state with one
registered texture succeeds, moves the count from 1 to 2, stores the
tag `"desk"` at slot 1, and keeps slot 0 as it was. -/
theorem C4_witness :
    (createGLTexture sOne (some img3) "desk" 7).1 = true ∧
    (createGLTexture sOne (some img3) "desk" 7).2.loadedTextures =
      sOne.loadedTextures + 1 ∧
    (createGLTexture sOne (some img3) "desk" 7).2.textureIDs
      sOne.loadedTextures = { tag := "desk", ID := 7 } ∧
    (createGLTexture sOne (some img3) "desk" 7).2.textureIDs 0 =
      sOne.textureIDs 0 := by
  obtain ⟨h1, h2, h3, h4⟩ :=
    C4_register_success sOne img3 "desk" 7 (Or.inl (by decide))
  exact ⟨h1, h2, h3, h4 0 (by decide)⟩

/-- The scan loop returns the sentinel `-1` when no inspected entry
matches. -/
theorem findSlotLoop_miss (f : ℕ → TextureEntry) (tag : String) :
    ∀ rem idx, (∀ j, idx ≤ j → j < idx + rem → (f j).tag ≠ tag) →
    findSlotLoop f tag idx rem = -1 := by
  intro rem
  induction rem with
  | zero => intro idx _; rfl
  | succ r ih =>
    intro idx h
    show (if (f idx).tag = tag then (idx : Int)
          else findSlotLoop f tag (idx + 1) r) = -1
    rw [if_neg (h idx (Nat.le_refl idx) (by omega))]
    exact ih (idx + 1) fun j h1 h2 => h j (by omega) (by omega)

/-- The scan loop returns the index of the first matching entry. -/
theorem findSlotLoop_hit (f : ℕ → TextureEntry) (tag : String) :
    ∀ rem idx k, idx ≤ k → k < idx + rem → (f k).tag = tag →
    (∀ j, idx ≤ j → j < k → (f j).tag ≠ tag) →
    findSlotLoop f tag idx rem = (k : Int) := by
  intro rem
  induction rem with
  | zero => intro idx k h1 h2 _ _; omega
  | succ r ih =>
    intro idx k h1 h2 hk hmiss
    show (if (f idx).tag = tag then (idx : Int)
          else findSlotLoop f tag (idx + 1) r) = (k : Int)
    rcases Nat.eq_or_lt_of_le h1 with heq | hlt
    · subst heq
      rw [if_pos hk]
    · rw [if_neg (hmiss idx (Nat.le_refl idx) hlt)]
      exact ih (idx + 1) k hlt (by omega) hk
        fun j hj1 hj2 => hmiss j (by omega) hj2

/-- Behaviour of a sequence of successful `CreateGLTexture` calls: the
cursor advances by the number of calls, previously registered entries
are untouched, and the `k`-th call of the sequence registers its
tag/ID pair at slot (old cursor + `k`). -/
theorem runLoads_spec (l : List TexLoad) :
    ∀ s : SceneState, (∀ c ∈ l, decodeOK c.img = true) →
    (runLoads s l).loadedTextures = s.loadedTextures + l.length ∧
    (∀ i, i < s.loadedTextures → (runLoads s l).textureIDs i = s.textureIDs i) ∧
    (∀ k, (hk : k < l.length) →
      (runLoads s l).textureIDs (s.loadedTextures + k) =
        { tag := l[k].tag, ID := l[k].newID }) := by
  induction l with
  | nil =>
    intro s _
    exact ⟨by simp [runLoads], fun i _ => rfl,
      fun k hk => absurd hk (by simp)⟩
  | cons c rest ih =>
    intro s hall
    have hc : decodeOK c.img = true := hall c (List.mem_cons_self c rest)
    have hrest : ∀ x ∈ rest, decodeOK x.img = true :=
      fun x hx => hall x (List.mem_cons_of_mem c hx)
    have hrun : runLoads s (c :: rest) =
        runLoads (createGLTexture s c.img c.tag c.newID).2 rest := rfl
    have hstep := createGLTexture_of_decodeOK s c hc
    have hcount : (createGLTexture s c.img c.tag c.newID).2.loadedTextures =
        s.loadedTextures + 1 := by rw [hstep]
    have hids : ∀ i, (createGLTexture s c.img c.tag c.newID).2.textureIDs i =
        if i = s.loadedTextures then { tag := c.tag, ID := c.newID }
        else s.textureIDs i := fun i => by rw [hstep]
    obtain ⟨ih1, ih2, ih3⟩ :=
      ih (createGLTexture s c.img c.tag c.newID).2 hrest
    refine ⟨?_, ?_, ?_⟩
    · rw [hrun, ih1, hcount, List.length_cons]
      omega
    · intro i hi
      rw [hrun, ih2 i (by rw [hcount]; omega), hids i,
        if_neg (Nat.ne_of_lt hi)]
    · intro k hk
      cases k with
      | zero =>
        rw [hrun, Nat.add_zero,
          ih2 s.loadedTextures (by rw [hcount]; omega),
          hids s.loadedTextures, if_pos rfl]
        rfl
      | succ n =>
        have hn : n < rest.length := by
          rw [List.length_cons] at hk; omega
        have harith : s.loadedTextures + (n + 1) =
            (createGLTexture s c.img c.tag c.newID).2.loadedTextures + n := by
          rw [hcount]; omega
        rw [hrun, harith, ih3 n hn]
        simp

/-! ### C6: tag lookup after registrations -/

/-- C6.  After a sequence of successful registrations with
pairwise-distinct tags (within the registry capacity), `FindTextureSlot`
returns, for each registered tag, the index at which it was registered,
and the sentinel `-1` for every tag that was not registered. -/
theorem C6_slot_lookup (loads : List TexLoad)
    (hsucc : ∀ c ∈ loads, decodeOK c.img = true)
    (hcap : loads.length ≤ 16)
    (hdist : (loads.map TexLoad.tag).Nodup) :
    (∀ k, (hk : k < loads.length) →
      findTextureSlot (runLoads initState loads) loads[k].tag = (k : Int)) ∧
    (∀ t, t ∉ loads.map TexLoad.tag →
      findTextureSlot (runLoads initState loads) t = -1) := by
  obtain ⟨h1, h2, h3⟩ := runLoads_spec loads initState hsucc
  have h0 : initState.loadedTextures = 0 := rfl
  have hcount : (runLoads initState loads).loadedTextures = loads.length := by
    rw [h1, h0, Nat.zero_add]
  have hentry : ∀ k, (hk : k < loads.length) →
      ((runLoads initState loads).textureIDs k).tag = loads[k].tag := by
    intro k hk
    have := h3 k hk
    rw [h0, Nat.zero_add] at this
    rw [this]
  constructor
  · intro k hk
    unfold findTextureSlot
    rw [hcount]
    apply findSlotLoop_hit
    · exact Nat.zero_le k
    · omega
    · exact hentry k hk
    · intro j hj0 hjk
      have hjlen : j < loads.length := by omega
      rw [hentry j hjlen]
      intro hEq
      have hmapj : j < (loads.map TexLoad.tag).length := by
        rw [List.length_map]; omega
      have hmapk : k < (loads.map TexLoad.tag).length := by
        rw [List.length_map]; omega
      have hmap : (loads.map TexLoad.tag)[j] = (loads.map TexLoad.tag)[k] := by
        rw [List.getElem_map, List.getElem_map]
        exact hEq
      have : j = k := hdist.getElem_inj_iff.1 hmap
      omega
  · intro t ht
    unfold findTextureSlot
    rw [hcount]
    apply findSlotLoop_miss
    intro j hj0 hj
    have hjlen : j < loads.length := by omega
    rw [hentry j hjlen]
    intro hEq
    refine ht ?_
    rw [← hEq]
    exact List.mem_map.mpr ⟨loads[j], List.getElem_mem hjlen, rfl⟩

/-- Witness for C6: after the two-load sequence `loads2`, the tag of the
first load is found at slot 0, the second at slot 1, and an absent tag
yields `-1`. -/
theorem C6_witness :
    findTextureSlot (runLoads initState loads2) "alpha" = 0 ∧
    findTextureSlot (runLoads initState loads2) "beta" = 1 ∧
    findTextureSlot (runLoads initState loads2) "gamma" = -1 := by
  obtain ⟨ha, hb⟩ := C6_slot_lookup loads2 (by decide) (by decide) (by decide)
  exact ⟨ha 0 (by decide), ha 1 (by decide), hb "gamma" (by decide)⟩

/-! ### C5: capacity of the texture array -/

/-- A run of `CreateGLTexture` calls advances the cursor by at most the
number of calls. -/
theorem runLoads_count_le (l : List TexLoad) :
    ∀ s, (runLoads s l).loadedTextures ≤ s.loadedTextures + l.length := by
  induction l with
  | nil => intro s; simp [runLoads]
  | cons c rest ih =>
    intro s
    have hrun : runLoads s (c :: rest) =
        runLoads (createGLTexture s c.img c.tag c.newID).2 rest := rfl
    rw [hrun, List.length_cons]
    have h1 := ih (createGLTexture s c.img c.tag c.newID).2
    have h2 := createGLTexture_count_le s c.img c.tag c.newID
    omega

/-- Every registry index written by a run of `CreateGLTexture` calls is
below the starting cursor plus the number of calls. -/
theorem runWriteIndices_lt (l : List TexLoad) :
    ∀ s, ∀ i ∈ runWriteIndices s l, i < s.loadedTextures + l.length := by
  induction l with
  | nil => intro s i hi; simp [runWriteIndices] at hi
  | cons c rest ih =>
    intro s i hi
    have hrw : runWriteIndices s (c :: rest) =
        (if (createGLTexture s c.img c.tag c.newID).1 then
          [s.loadedTextures] else []) ++
          runWriteIndices (createGLTexture s c.img c.tag c.newID).2 rest := rfl
    rw [hrw] at hi
    rw [List.length_cons]
    rcases List.mem_append.1 hi with h | h
    · by_cases hb : (createGLTexture s c.img c.tag c.newID).1
      · rw [if_pos hb] at h
        simp at h
        omega
      · rw [if_neg hb] at h
        simp at h
    · have h1 := ih (createGLTexture s c.img c.tag c.newID).2 i h
      have h2 := createGLTexture_count_le s c.img c.tag c.newID
      omega

/-- The length of the built load list equals the length of the
(filename, tag) list. -/
theorem mkLoadsFrom_length (decode : String → Option Image) (ids : ℕ → Int) :
    ∀ (files : List (String × String)) (k : ℕ),
    (mkLoadsFrom decode ids k files).length = files.length := by
  intro files
  induction files with
  | nil => intro k; rfl
  | cons p rest ih =>
    intro k
    show (mkLoadsFrom decode ids (k + 1) rest).length + 1 = rest.length + 1
    rw [ih (k + 1)]

/-- C5.  Whatever the decoder returns for the nine scene texture files,
the load sequence of `LoadSceneTextures`, started from the freshly
constructed state, keeps the loaded-texture count within the 16-entry
capacity of the texture array, and every registry index it writes is in
range `0..15`.  (`CreateGLTexture` itself has no bound check; the bound
holds because the scene performs nine loads.) -/
theorem C5_capacity_respected (decode : String → Option Image)
    (ids : ℕ → Int) :
    (loadSceneTextures initState decode ids).loadedTextures ≤ 16 ∧
    ∀ i ∈ runWriteIndices initState (mkLoads decode ids), i < 16 := by
  have hlen : (mkLoads decode ids).length = 9 := by
    unfold mkLoads
    rw [mkLoadsFrom_length]
    rfl
  have h0 : initState.loadedTextures = 0 := rfl
  constructor
  · have h := runLoads_count_le (mkLoads decode ids) initState
    rw [hlen, h0] at h
    exact le_trans h (by omega)
  · intro i hi
    have h := runWriteIndices_lt (mkLoads decode ids) initState i hi
    rw [hlen, h0] at h
    omega

/-- Witness for C5: with a decoder that always yields a 3-channel image
all nine loads succeed; the final count is within capacity and the
ninth write index (8) is in range, via membership in the computed
write-index list. -/
theorem C5_witness :
    (loadSceneTextures initState decAll3 idsZero).loadedTextures ≤ 16 ∧
    (8 : ℕ) < 16 := by
  obtain ⟨h1, h2⟩ := C5_capacity_respected decAll3 idsZero
  exact ⟨h1, h2 8 (by decide)⟩

/-! ### C10: `SetShaderTexture` with an unregistered tag -/

/-- C10.  For a tag with no registered entry, `SetShaderTexture` still
enables texturing (sets the `bUseTexture` uniform to true, i.e. int 1)
and passes the sentinel `-1` to the `objectTexture` sampler uniform. -/
theorem C10_shader_texture_absent (s : SceneState) (textureTag : String)
    (habs : ∀ i < s.loadedTextures, (s.textureIDs i).tag ≠ textureTag) :
    setShaderTexture s textureTag =
      [ShaderCall.setIntValue g_UseTextureName 1,
       ShaderCall.setSampler2DValue g_TextureValueName (-1)] := by
  unfold setShaderTexture
  have h : findTextureSlot s textureTag = -1 := by
    unfold findTextureSlot
    apply findSlotLoop_miss
    intro j hj0 hj
    exact habs j (by omega)
  rw [h]

/-- Witness for C10: looking up the absent tag `"granite"` in a state
with one registered texture enables texturing and sends `-1`. -/
theorem C10_witness :
    setShaderTexture sOne "granite" =
      [ShaderCall.setIntValue g_UseTextureName 1,
       ShaderCall.setSampler2DValue g_TextureValueName (-1)] :=
  C10_shader_texture_absent sOne "granite" (by decide)

/-! ### C1 and C9: `FindMaterial` -/

/-- Unfolding equation of the `FindMaterial` scan loop. -/
theorem scanMaterial_cons (tag : String) (material m : OBJECT_MATERIAL)
    (rest : List OBJECT_MATERIAL) :
    scanMaterial tag material (m :: rest) =
      if m.tag = tag then
        { material with
          diffuseColor := m.diffuseColor
          specularColor := m.specularColor
          shininess := m.shininess }
      else scanMaterial tag material rest := rfl

/-- When no entry matches the tag, the `FindMaterial` scan loop leaves
the output record untouched. -/
theorem scanMaterial_not_found (tag : String) (material : OBJECT_MATERIAL) :
    ∀ mats : List OBJECT_MATERIAL, (∀ m ∈ mats, m.tag ≠ tag) →
    scanMaterial tag material mats = material := by
  intro mats
  induction mats with
  | nil => intro _; rfl
  | cons m rest ih =>
    intro h
    show (if m.tag = tag then _ else scanMaterial tag material rest) = material
    rw [if_neg (h m (List.mem_cons_self m rest))]
    exact ih fun x hx => h x (List.mem_cons_of_mem m hx)

/-- The scan loop of `FindMaterial` never writes the `ambientColor`,
`ambientStrength` or `tag` fields of the output record. -/
theorem scanMaterial_untouched_fields (tag : String)
    (material : OBJECT_MATERIAL) :
    ∀ mats : List OBJECT_MATERIAL,
    (scanMaterial tag material mats).ambientColor = material.ambientColor ∧
    (scanMaterial tag material mats).ambientStrength =
      material.ambientStrength ∧
    (scanMaterial tag material mats).tag = material.tag := by
  intro mats
  induction mats with
  | nil => exact ⟨rfl, rfl, rfl⟩
  | cons m rest ih =>
    rw [scanMaterial_cons]
    by_cases h : m.tag = tag
    · rw [if_pos h]
      exact ⟨rfl, rfl, rfl⟩
    · rw [if_neg h]
      exact ih

/-- Counterexample to C1 as stated: `"granite"` is not the tag of any
entry of the (non-empty) material list built by
`DefineObjectMaterials`, yet `FindMaterial` does not return `false` for
it. -/
theorem C1_counterexample :
    definedMaterials.length ≠ 0 ∧
    "granite" ∉ definedMaterials.map OBJECT_MATERIAL.tag ∧
    (findMaterial definedMaterials "granite" junkMaterial).1 ≠ false :=
  ⟨by decide, by decide, by decide⟩

/-- C1 as amended.  For a tag that is not the tag of any entry of a
non-empty material list, `FindMaterial` returns `true` — its boolean
reflects only that the list is non-empty — while writing none of the
output fields; it returns `false` (with the output untouched) exactly
when the material list is empty.  In no case does it raise an error. -/
theorem C1_amended_theorem (mats : List OBJECT_MATERIAL) (tag : String)
    (material : OBJECT_MATERIAL) (hne : mats.length ≠ 0)
    (habs : ∀ m ∈ mats, m.tag ≠ tag) :
    findMaterial mats tag material = (true, material) ∧
    ∀ m0 : OBJECT_MATERIAL, findMaterial [] tag m0 = (false, m0) := by
  constructor
  · unfold findMaterial
    rw [if_neg hne, scanMaterial_not_found tag material mats habs]
  · intro m0
    rfl

/-- Witness for the amended C1: looking up the absent tag `"granite"`
in the scene's material list returns `true` and the untouched output
record. -/
theorem C1_witness :
    findMaterial definedMaterials "granite" junkMaterial =
      (true, junkMaterial) :=
  (C1_amended_theorem definedMaterials "granite" junkMaterial
    (by decide) (by decide)).1

/-- C9.  `FindMaterial` only ever writes the `diffuseColor`,
`specularColor` and `shininess` fields of the caller-supplied output
record: in every case — tag found or not, list empty or not — the
output's `ambientColor` and `ambientStrength` (and `tag`) are exactly
those of the record passed in. -/
theorem C9_ambient_untouched (mats : List OBJECT_MATERIAL) (tag : String)
    (material : OBJECT_MATERIAL) :
    ((findMaterial mats tag material).2).ambientColor =
      material.ambientColor ∧
    ((findMaterial mats tag material).2).ambientStrength =
      material.ambientStrength ∧
    ((findMaterial mats tag material).2).tag = material.tag := by
  unfold findMaterial
  by_cases h : mats.length = 0
  · rw [if_pos h]
    exact ⟨rfl, rfl, rfl⟩
  · rw [if_neg h]
    exact scanMaterial_untouched_fields tag material mats

/-! ### C3 and C7: the composed model matrix -/

/-- Normalising the unit X axis leaves it unchanged. -/
theorem glmNormalize_unitX : glmNormalize ⟨1, 0, 0⟩ = ⟨1, 0, 0⟩ := by
  unfold glmNormalize
  norm_num

/-- Normalising the unit Y axis leaves it unchanged. -/
theorem glmNormalize_unitY : glmNormalize ⟨0, 1, 0⟩ = ⟨0, 1, 0⟩ := by
  unfold glmNormalize
  norm_num

/-- Normalising the unit Z axis leaves it unchanged. -/
theorem glmNormalize_unitZ : glmNormalize ⟨0, 0, 1⟩ = ⟨0, 0, 1⟩ := by
  unfold glmNormalize
  norm_num

/-- GLM's axis–angle rotation about the unit X axis is the elementary
X-rotation matrix. -/
theorem glmRotate_unitX (θ : ℝ) : glmRotate θ ⟨1, 0, 0⟩ = elemRotX θ := by
  unfold glmRotate elemRotX
  rw [glmNormalize_unitX]
  ext i j
  fin_cases i <;> fin_cases j <;> simp [Matrix.vecHead, Matrix.vecTail]

/-- GLM's axis–angle rotation about the unit Y axis is the elementary
Y-rotation matrix. -/
theorem glmRotate_unitY (θ : ℝ) : glmRotate θ ⟨0, 1, 0⟩ = elemRotY θ := by
  unfold glmRotate elemRotY
  rw [glmNormalize_unitY]
  ext i j
  fin_cases i <;> fin_cases j <;> simp [Matrix.vecHead, Matrix.vecTail]

/-- GLM's axis–angle rotation about the unit Z axis is the elementary
Z-rotation matrix. -/
theorem glmRotate_unitZ (θ : ℝ) : glmRotate θ ⟨0, 0, 1⟩ = elemRotZ θ := by
  unfold glmRotate elemRotZ
  rw [glmNormalize_unitZ]
  ext i j
  fin_cases i <;> fin_cases j <;> simp [Matrix.vecHead, Matrix.vecTail]

/-- GLM's scale matrix coincides with the elementary scale matrix. -/
theorem glmScale_eq_elem (v : Vec3) : glmScale v = elemScale v := rfl

/-- GLM's translation matrix coincides with the elementary translation
matrix. -/
theorem glmTranslate_eq_elem (v : Vec3) : glmTranslate v = elemTranslate v :=
  rfl

/-- C3.  For every scale vector, rotation angles (degrees) and
translation vector, the model matrix `SetTransformations` sends to the
shader equals the product translation × rotateZ × rotateY × rotateX ×
scale of the corresponding elementary transform matrices (the rotations
taken at the radian equivalents of the degree angles). -/
theorem C3_transform_composition (scaleXYZ : Vec3)
    (XrotationDegrees YrotationDegrees ZrotationDegrees : ℝ)
    (positionXYZ : Vec3) :
    setTransformationsModel scaleXYZ XrotationDegrees YrotationDegrees
      ZrotationDegrees positionXYZ =
      elemTranslate positionXYZ *
        elemRotZ (glmRadians ZrotationDegrees) *
        elemRotY (glmRadians YrotationDegrees) *
        elemRotX (glmRadians XrotationDegrees) *
        elemScale scaleXYZ := by
  unfold setTransformationsModel
  rw [glmRotate_unitX, glmRotate_unitY, glmRotate_unitZ,
    glmScale_eq_elem, glmTranslate_eq_elem]

/-- The 4×4 identity matrix, written entrywise. -/
theorem mat_one_eq : (1 : Mat4) =
    !![1, 0, 0, 0; 0, 1, 0, 0; 0, 0, 1, 0; 0, 0, 0, 1] := by
  ext i j
  fin_cases i <;> fin_cases j <;>
    simp [Matrix.one_apply, Matrix.vecHead, Matrix.vecTail]

/-- Zero degrees is zero radians. -/
theorem glmRadians_zero : glmRadians 0 = 0 := by
  unfold glmRadians
  ring

/-- A rotation by angle 0 (about any axis) is the identity matrix. -/
theorem glmRotate_zero (v : Vec3) : glmRotate 0 v = 1 := by
  unfold glmRotate
  rw [mat_one_eq]
  ext i j
  fin_cases i <;> fin_cases j <;> simp [Matrix.vecHead, Matrix.vecTail]

/-- Scaling by (1, 1, 1) is the identity matrix. -/
theorem glmScale_one : glmScale ⟨1, 1, 1⟩ = 1 := by
  unfold glmScale
  rw [mat_one_eq]

/-- Translating by (0, 0, 0) is the identity matrix. -/
theorem glmTranslate_zero : glmTranslate ⟨0, 0, 0⟩ = 1 := by
  unfold glmTranslate
  rw [mat_one_eq]

/-- C7.  The model matrix composed by `SetTransformations` from scale
(1, 1, 1), rotations of 0 degrees about X, Y and Z, and translation
(0, 0, 0) is the 4×4 identity matrix. -/
theorem C7_identity_transform :
    setTransformationsModel ⟨1, 1, 1⟩ 0 0 0 ⟨0, 0, 0⟩ = 1 := by
  unfold setTransformationsModel
  rw [glmRadians_zero, glmRotate_zero, glmRotate_zero, glmRotate_zero,
    glmScale_one, glmTranslate_zero]
  simp

/-! ### C8: `RenderScene` does not modify the registries -/

/-- No single `RenderScene` statement modifies the scene state: the
local-variable assignments touch only the locals, and the `Set*` and
draw calls only read the state and emit shader / draw calls. -/
theorem execRCmd_state (s : SceneState) (loc : RenderLocals)
    (lm : OBJECT_MATERIAL) (c : RCmd) : (execRCmd s loc lm c).1 = s := by
  cases c <;> rfl

/-- Executing any statement list leaves the scene state unchanged. -/
theorem runScript_state (cmds : List RCmd) :
    ∀ (s : SceneState) (loc : RenderLocals) (lm : OBJECT_MATERIAL),
    (runScript s loc lm cmds).1 = s := by
  induction cmds with
  | nil => intro s loc lm; rfl
  | cons c rest ih =>
    intro s loc lm
    show (runScript (execRCmd s loc lm c).1 (execRCmd s loc lm c).2.1 lm
      rest).1 = s
    rw [ih]
    exact execRCmd_state s loc lm c

/-- C8.  `RenderScene` leaves the texture registry (tags, IDs and the
loaded-texture count) and the material list unchanged: from every
starting state (and any initial values of its uninitialised locals),
both collections after the call equal their state before it. -/
theorem C8_render_scene_pure (s : SceneState) (loc0 : RenderLocals)
    (lm : OBJECT_MATERIAL) :
    (renderScene s loc0 lm).1.textureIDs = s.textureIDs ∧
    (renderScene s loc0 lm).1.loadedTextures = s.loadedTextures ∧
    (renderScene s loc0 lm).1.objectMaterials = s.objectMaterials := by
  unfold renderScene
  simp only [runScript_state]
  exact ⟨trivial, trivial, trivial⟩

end CS330
